import Mathlib

/-!
Shallow embedding of `dm_control/manipulation/push.py` (the "Push" task).

Positions and configuration constants are exact rationals (the Python file
manipulates double-precision literals; every literal in the file is a finite
decimal, hence rational).  The reward pipeline is real-valued because the
Euclidean norm introduces a square root.

External collaborators (`dm_control.utils.rewards.tolerance`, the
`distributions.Uniform` sampler, `workspaces.DOWN_QUATERNION`,
`registry.add`, `numpy` random states) are code of the repository that is
not under `src/`; they are modelled from the spec where a claim needs them,
and each such definition carries a `Modelled from the spec:` doc comment.
-/

/-- Component-wise rational 3-vector, the model of a MuJoCo `xpos` / bounding
box corner (NumPy length-3 float arrays in the source). -/
structure Vec3 where
  x : ℚ
  y : ℚ
  z : ℚ
deriving DecidableEq, Repr

/-- Axis-aligned bounding box, the model of `workspaces.BoundingBox(lower, upper)`. -/
structure BoundingBox where
  lower : Vec3
  upper : Vec3
deriving DecidableEq, Repr

/-- Quaternion as a plain 4-tuple of rationals (the source stores a tuple of
float literals). -/
structure Quat where
  w : ℚ
  x : ℚ
  y : ℚ
  z : ℚ
deriving DecidableEq, Repr

/-- Modelled from the spec: the framework's fixed downward-facing quaternion
`workspaces.DOWN_QUATERNION` used for the tool-center-point pose (the library
stores it as a tuple of float literals; the exact value is immaterial to the
claims, only that it is one fixed constant). -/
def DOWN_QUATERNION : Quat :=
  ⟨0, 0.70710678118654746, 0.70710678118654746, 0⟩

/-- Model of the `_PushWorkspace` namedtuple
`collections.namedtuple('_PushWorkspace', ['target_bbox', 'tcp_bbox', 'arm_offset'])`. -/
structure _PushWorkspace where
  target_bbox : BoundingBox
  tcp_bbox : BoundingBox
  arm_offset : Vec3
deriving DecidableEq, Repr

/-- Modelled from the spec: `robots.ARM_OFFSET`, the fixed arm mounting offset
supplied by the shared robots module (exact value immaterial to the claims). -/
def ARM_OFFSET : Vec3 := ⟨0, 0.4, 0⟩

/-- `_PROP_Z_OFFSET = 0.001` — ensures the props are not touching the table
before settling. -/
def _PROP_Z_OFFSET : ℚ := 0.001

/-- `_DUPLO_WORKSPACE` from the source: target bbox on the left side at height
`_PROP_Z_OFFSET`, TCP bbox above the table, arm offset from the robots module. -/
def _DUPLO_WORKSPACE : _PushWorkspace :=
  ⟨⟨⟨-0.1, -0.1, _PROP_Z_OFFSET⟩, ⟨0.0, 0.1, _PROP_Z_OFFSET⟩⟩,
   ⟨⟨-0.1, -0.1, 0.2⟩, ⟨0.1, 0.1, 0.4⟩⟩,
   ARM_OFFSET⟩

/-- `_HAND_TARGET_RADIUS = 0.05`. -/
def _HAND_TARGET_RADIUS : ℚ := 0.05

/-- `_TARGET_RADIUS = 0.025`. -/
def _TARGET_RADIUS : ℚ := 0.025

/-- `_TARGET_PROP_XPOS = 0.1`. -/
def _TARGET_PROP_XPOS : ℚ := 0.1

/-- Component-wise vector difference, the model of `hand_pos - target_pos`. -/
def sub3 (a b : Vec3) : Vec3 := ⟨a.x - b.x, a.y - b.y, a.z - b.z⟩

/-- Sum of squared components. -/
def normSq (v : Vec3) : ℚ := v.x ^ 2 + v.y ^ 2 + v.z ^ 2

/-- Euclidean norm, the model of `np.linalg.norm` on a length-3 vector. -/
noncomputable def norm3 (v : Vec3) : ℝ := Real.sqrt ((normSq v : ℚ) : ℝ)

/-- Modelled from the spec: the `long_tail` sigmoid of the external
tolerance-shaping utility (`dm_control.utils.rewards._sigmoids`): the library
computes `scale = sqrt(1/value_at_1 - 1)` and returns `1/((x*scale)**2 + 1)`;
since the scale only enters squared and `(x*sqrt c)^2 = x^2 * c` for `c ≥ 0`,
this closed form is the same function (call sites use `value_at_1 = 0.2`, for
which `1/value_at_1 - 1 = 4 ≥ 0`). -/
noncomputable def longTail (x value_at_1 : ℝ) : ℝ :=
  1 / (x ^ 2 * (1 / value_at_1 - 1) + 1)

/-- Modelled from the spec: the external tolerance-shaping utility
`dm_control.utils.rewards.tolerance(x, bounds=(lower, upper), margin,
value_at_margin, sigmoid)`: returns `1` inside the bounds; with zero margin it
is the 0/1 indicator of the bounds; otherwise it feeds the rescaled distance to
the chosen sigmoid, which equals `value_at_margin` at distance `margin` from
the nearest bound.  (The library's `ValueError` checks `lower ≤ upper` and
`margin ≥ 0` hold at both call sites of this file and are not modelled.) -/
noncomputable def tolerance (x lower upper margin value_at_margin : ℝ)
    (sigmoid : ℝ → ℝ → ℝ) : ℝ :=
  if margin = 0 then (if lower ≤ x ∧ x ≤ upper then 1 else 0)
  else if lower ≤ x ∧ x ≤ upper then 1
  else sigmoid ((if x < lower then lower - x else x - upper) / margin) value_at_margin

/-- Snapshot of the physics state, as read by the task: the bound `xpos` of the
hand's tool-center-point site, the bound `xpos` of `self._target` (the free
entity attachment frame of the prop, see `__init__` line 100), the `xpos` of
the invisible `target_site` attached to the prop, and the remaining generalized
coordinates of the simulation (which the reward never reads). -/
structure Physics where
  handTcpXpos : Vec3
  targetXpos : Vec3
  siteXpos : Vec3
  qpos : List ℚ
deriving DecidableEq, Repr

/-- Hand proximity term of `Push.get_reward` (source lines 146, 148-149):
`rewards.tolerance(||hand_pos - target_pos||, bounds=(0, _HAND_TARGET_RADIUS),
margin=_HAND_TARGET_RADIUS*4, value_at_margin=0.2, sigmoid='long_tail')`. -/
noncomputable def hand_reward_of (hand_pos target_pos : Vec3) : ℝ :=
  tolerance (norm3 (sub3 hand_pos target_pos)) 0 ((_HAND_TARGET_RADIUS : ℚ) : ℝ)
    (((_HAND_TARGET_RADIUS * 4 : ℚ) : ℝ)) 0.2 longTail

/-- Prop displacement term of `Push.get_reward` (source lines 147, 150-151):
`rewards.tolerance(abs(target_pos[0] - _TARGET_PROP_XPOS),
bounds=(0, _TARGET_RADIUS), margin=_TARGET_RADIUS*4, value_at_margin=0.2,
sigmoid='long_tail')`. -/
noncomputable def prop_reward_of (target_pos : Vec3) : ℝ :=
  tolerance (((|target_pos.x - _TARGET_PROP_XPOS| : ℚ) : ℝ)) 0 ((_TARGET_RADIUS : ℚ) : ℝ)
    (((_TARGET_RADIUS * 4 : ℚ) : ℝ)) 0.2 longTail

/-- `Push.get_reward(self, physics)` (source lines 143-152): reads the hand
tool-center-point position and the target (prop frame) position from the
physics snapshot and returns `hand_reward + prop_reward`. -/
noncomputable def Push.get_reward (physics : Physics) : ℝ :=
  hand_reward_of physics.handTcpXpos physics.targetXpos
    + prop_reward_of physics.targetXpos

/-- Observation configurations of `dm_control.manipulation.shared.observations`
used by this file: full-state `PERFECT_FEATURES` and pixel `VISION`. -/
inductive ObservationSettings where
  | PERFECT_FEATURES
  | VISION
deriving DecidableEq, Repr

/-- Modelled from the spec: the task tags of
`dm_control.manipulation.shared.tags` under which factories are registered. -/
inductive TaskTag where
  | FEATURES
  | VISION
  | EASY
deriving DecidableEq, Repr

/-- Kind of prop the factories build (`props.Duplo` in `_push`). -/
inductive PropKind where
  | duplo
deriving DecidableEq, Repr

/-- Python-level failure observable from this file's code paths: attribute
access on an object that does not have the attribute (e.g. `None.mjcf_model`,
or `self._target_placer` when it was never assigned). -/
inductive PyError where
  | attributeError
deriving DecidableEq, Repr

/-- The tool-center-point initializer built in `Push.__init__` (lines 87-90):
`initializers.ToolCenterPointInitializer(hand, arm,
position=distributions.Uniform(*workspace.tcp_bbox),
quaternion=workspaces.DOWN_QUATERNION)`. -/
structure TCPInitializer where
  lower : Vec3
  upper : Vec3
  quaternion : Quat
deriving DecidableEq, Repr

/-- The prop placer built in `Push.__init__` (lines 101-105):
`initializers.PropPlacer(props=[prop], position=Uniform(*workspace.target_bbox),
quaternion=workspaces.uniform_z_rotation, settle_physics=True)`. -/
structure PropPlacer where
  lower : Vec3
  upper : Vec3
  settle_physics : Bool
deriving DecidableEq, Repr

/-- The site created by `Push._make_target_site` (lines 121-125):
`workspaces.add_target_site(body=parent_entity.mjcf_model.worldbody,
radius=_HAND_TARGET_RADIUS, visible=visible, rgba=RED, name='target_site')`. -/
structure TargetSite where
  radius : ℚ
  visible : Bool
deriving DecidableEq, Repr

/-- Modelled from the spec: a `numpy.random.RandomState` as consumed by
`initialize_episode`; only the value returned by its first `uniform()` call is
relevant to the claims. -/
structure RandomState where
  uniform : ℚ
deriving DecidableEq, Repr

/-- Modelled from the spec: `numpy` `random_state.uniform()` with default
arguments samples from the half-open unit interval `[0, 1)`. -/
def RandomState.valid (rs : RandomState) : Prop :=
  0 ≤ rs.uniform ∧ rs.uniform < 1

instance (rs : RandomState) : Decidable (RandomState.valid rs) := by
  unfold RandomState.valid
  infer_instance

/-- Task object state after `Push.__init__`: exactly the attributes the
constructor assigns (`self._arena`, `self._arm`, `self._hand`,
`self.control_timestep`, `self._tcp_initializer`, `self._task_observables`,
`self._prop`, `self._prop_placer`, and the target site created on the prop).
Note there is no `_target_placer` field: `initialize_episode` reads
`self._target_placer` (line 161) but no method of the class ever assigns it,
so reading it raises `AttributeError`. -/
structure Push where
  _arena : String
  _arm : String
  _hand : String
  control_timestep : ℚ
  _tcp_initializer : TCPInitializer
  _task_observables : List String
  _prop : Option PropKind
  _prop_placer : Option PropPlacer
  targetSiteOnProp : Option TargetSite
  obs_settings : ObservationSettings

/-- `Push._make_target_site(self, parent_entity, visible)` (lines 121-125). -/
def Push._make_target_site (visible : Bool) : TargetSite :=
  ⟨_HAND_TARGET_RADIUS, visible⟩

/-- `Push.__init__` (lines 66-119).  With `prop = None` the call
`self._make_target_site(parent_entity=prop, visible=False)` (line 99)
dereferences `prop.mjcf_model` and raises `AttributeError` (likewise
`add_free_entity(prop)` on line 100 would); with a prop it assigns every
attribute of the task.  `self._target_placer` is never assigned. -/
def Push.init (arena arm hand : String) (prop : Option PropKind)
    (obs_settings : ObservationSettings) (workspace : _PushWorkspace)
    (control_timestep : ℚ) : Except PyError Push :=
  match prop with
  | none => Except.error PyError.attributeError
  | some p => Except.ok
      ⟨arena, arm, hand, control_timestep,
       ⟨workspace.tcp_bbox.lower, workspace.tcp_bbox.upper, DOWN_QUATERNION⟩,
       ["front_close", "target_position"],
       some p,
       some ⟨workspace.target_bbox.lower, workspace.target_bbox.upper, true⟩,
       some (Push._make_target_site false),
       obs_settings⟩

/-- `Push.root_entity` property (lines 127-129). -/
def Push.root_entity (t : Push) : String := t._arena

/-- `Push.arm` property (lines 131-133). -/
def Push.arm (t : Push) : String := t._arm

/-- `Push.hand` property (lines 135-137). -/
def Push.hand (t : Push) : String := t._hand

/-- `Push.task_observables` property (lines 139-141). -/
def Push.task_observables (t : Push) : List String := t._task_observables

/-- Observable effects of `Push.initialize_episode` on the physics, in
execution order: setting the hand grasp aperture, running the TCP pose
initializer, running the physics-settling prop placer, or moving the fixed
target site (the action the constructor docstring promises for
`prop = None`; unreachable in the code as written). -/
inductive ResetEvent where
  | setGrasp (closeFactors : ℚ)
  | tcpInit
  | propPlace
  | moveTargetSite
deriving DecidableEq, Repr

/-- `Push.initialize_episode(self, physics, random_state)` (lines 154-161),
as the ordered list of effects performed before returning or failing, paired
with the error if one is raised: `set_grasp` with
`close_factors=random_state.uniform()`, then the TCP initializer, then — if
`self._prop` is truthy — the prop placer; otherwise the `else` branch reads
`self._target_placer`, which was never assigned, raising `AttributeError`
before any site is moved. -/
def Push.init_episode (t : Push) (random_state : RandomState) :
    List ResetEvent × Option PyError :=
  let events := [ResetEvent.setGrasp random_state.uniform, ResetEvent.tcpInit]
  match t._prop with
  | some _ => (events ++ [ResetEvent.propPlace], none)
  | none => (events, some PyError.attributeError)

/-- Method-call view of `get_reward`: Python passes the (mutable) task object
to the bound method; the body assigns no attribute of `self`, so the task
state after the call is the task state before it. -/
noncomputable def Push.get_reward_step (t : Push) (physics : Physics) : Push × ℝ :=
  (t, Push.get_reward physics)

/-- Method-call view of `initialize_episode`: the body assigns no attribute of
`self`, so the task state after the call is the task state before it. -/
def Push.init_episode_step (t : Push) (rs : RandomState) :
    Push × (List ResetEvent × Option PyError) :=
  (t, Push.init_episode t rs)

/-- Close factors extracted from a reset trace (the arguments of `set_grasp`). -/
def graspFactors (events : List ResetEvent) : List ℚ :=
  events.filterMap fun e =>
    match e with
    | ResetEvent.setGrasp u => some u
    | _ => none

/-- Modelled from the spec: the support of `distributions.Uniform(lower,
upper)` on 3-vectors — each component uniform between the corresponding
bounds. -/
def uniformSupport (lower upper v : Vec3) : Prop :=
  lower.x ≤ v.x ∧ v.x ≤ upper.x ∧ lower.y ≤ v.y ∧ v.y ≤ upper.y ∧
    lower.z ≤ v.z ∧ v.z ≤ upper.z

instance (lower upper v : Vec3) : Decidable (uniformSupport lower upper v) := by
  unfold uniformSupport
  infer_instance

/-- Membership of a point in an axis-aligned bounding box. -/
def inBBox (b : BoundingBox) (v : Vec3) : Prop :=
  b.lower.x ≤ v.x ∧ v.x ≤ b.upper.x ∧ b.lower.y ≤ v.y ∧ v.y ≤ b.upper.y ∧
    b.lower.z ≤ v.z ∧ v.z ≤ b.upper.z

instance (b : BoundingBox) (v : Vec3) : Decidable (inBBox b v) := by
  unfold inBBox
  infer_instance

/-- Positions the TCP initializer of a task can sample: the support of its
uniform position distribution. -/
def tcpSampleSupport (ti : TCPInitializer) (v : Vec3) : Prop :=
  uniformSupport ti.lower ti.upper v

instance (ti : TCPInitializer) (v : Vec3) : Decidable (tcpSampleSupport ti v) := by
  unfold tcpSampleSupport
  infer_instance

/-- `CONTROL_TIMESTEP` of `dm_control.manipulation.shared.constants`.
Modelled from the spec: the shared control timestep constant passed through by
`_push` (exact value immaterial to the claims). -/
def CONTROL_TIMESTEP : ℚ := 0.04

/-- `_push(obs_settings)` (lines 164-183): builds the standard arena, arm,
hand and a Duplo prop, and instantiates `Push` with `_DUPLO_WORKSPACE` and the
shared control timestep; the observation settings are the only varying input. -/
def _push (obs_settings : ObservationSettings) : Except PyError Push :=
  Push.init "standard_arena" "arm" "hand" (some PropKind.duplo) obs_settings
    _DUPLO_WORKSPACE CONTROL_TIMESTEP

/-- `push_duplo_features()` (lines 186-188). -/
def push_duplo_features : Except PyError Push :=
  _push ObservationSettings.PERFECT_FEATURES

/-- `push_duplo_vision()` (lines 191-193). -/
def push_duplo_vision : Except PyError Push :=
  _push ObservationSettings.VISION

/-- Modelled from the spec: an entry of the external task registry as created
by the `@registry.add(tag, tag)` decorator — the factory name, its tags, and
the task the factory returns. -/
structure RegistryEntry where
  name : String
  tags : List TaskTag
  task : Except PyError Push

/-- Modelled from the spec: the contents of the external task registry after
importing this file — exactly the two decorated factories (lines 186-193);
the `push_site_*` variants are commented out in the source and register
nothing. -/
def registeredEntries : List RegistryEntry :=
  [⟨"push_duplo_features", [TaskTag.FEATURES, TaskTag.EASY], push_duplo_features⟩,
   ⟨"push_duplo_vision", [TaskTag.VISION, TaskTag.EASY], push_duplo_vision⟩]

/-- The task `_push` produces for the features variant (used as a concrete
evaluation point). -/
def duploPush : Push :=
  ⟨"standard_arena", "arm", "hand", CONTROL_TIMESTEP,
   ⟨_DUPLO_WORKSPACE.tcp_bbox.lower, _DUPLO_WORKSPACE.tcp_bbox.upper, DOWN_QUATERNION⟩,
   ["front_close", "target_position"],
   some PropKind.duplo,
   some ⟨_DUPLO_WORKSPACE.target_bbox.lower, _DUPLO_WORKSPACE.target_bbox.upper, true⟩,
   some (Push._make_target_site false),
   ObservationSettings.PERFECT_FEATURES⟩

/-- A hypothetical task object whose `_prop` attribute is `None` — the state
the constructor docstring (lines 74-76) describes for `prop = None`
(used as a concrete evaluation point for the no-prop code path). -/
def noPropPush : Push :=
  ⟨"standard_arena", "arm", "hand", CONTROL_TIMESTEP,
   ⟨_DUPLO_WORKSPACE.tcp_bbox.lower, _DUPLO_WORKSPACE.tcp_bbox.upper, DOWN_QUATERNION⟩,
   ["front_close", "target_position"],
   none,
   none,
   none,
   ObservationSettings.PERFECT_FEATURES⟩

/-- Physics snapshot with the hand TCP exactly on the prop and the prop
exactly at the target x-position (used as a concrete evaluation point). -/
def cexPhysics : Physics :=
  ⟨⟨0.1, 0, 0⟩, ⟨0.1, 0, 0⟩, ⟨0, 0, 0⟩, []⟩

/-- Inside the bounds the tolerance shaping is exactly 1, whatever the margin
and sigmoid. -/
theorem tolerance_eq_one {x lower upper margin value_at_margin : ℝ}
    {sigmoid : ℝ → ℝ → ℝ} (h1 : lower ≤ x) (h2 : x ≤ upper) :
    tolerance x lower upper margin value_at_margin sigmoid = 1 := by
  unfold tolerance
  by_cases hm : margin = 0
  · rw [if_pos hm, if_pos ⟨h1, h2⟩]
  · rw [if_neg hm, if_pos ⟨h1, h2⟩]

/-- Above the upper bound (with a sane lower bound) the tolerance shaping is
the sigmoid of the rescaled overshoot. -/
theorem tolerance_above {x lower upper margin value_at_margin : ℝ}
    {sigmoid : ℝ → ℝ → ℝ} (hm : margin ≠ 0) (hl : lower ≤ upper) (hx : upper < x) :
    tolerance x lower upper margin value_at_margin sigmoid =
      sigmoid ((x - upper) / margin) value_at_margin := by
  unfold tolerance
  rw [if_neg hm, if_neg, if_neg]
  · exact not_lt_of_le (le_trans hl (le_of_lt hx))
  · intro hin
    exact absurd hx (not_lt_of_le hin.2)

/-- The long-tail sigmoid stays in the unit interval whenever its value-at-1
parameter lies in (0, 1]. -/
theorem longTail_mem_unit (x value_at_1 : ℝ) (hv : 0 < value_at_1)
    (hv1 : value_at_1 ≤ 1) : 0 ≤ longTail x value_at_1 ∧ longTail x value_at_1 ≤ 1 := by
  unfold longTail
  have hc : 0 ≤ 1 / value_at_1 - 1 := by
    have h1 : 1 ≤ 1 / value_at_1 := by
      rw [le_div_iff₀ hv]
      linarith
    linarith
  have hd : 1 ≤ x ^ 2 * (1 / value_at_1 - 1) + 1 := by
    nlinarith [sq_nonneg x]
  constructor
  · exact div_nonneg (by norm_num) (by linarith)
  · rw [div_le_one (by linarith)]
    exact hd

/-- The tolerance shaping stays in the unit interval whenever the sigmoid does
at the value-at-margin parameter in use. -/
theorem tolerance_mem_unit (x lower upper margin value_at_margin : ℝ)
    (sigmoid : ℝ → ℝ → ℝ)
    (hsig : ∀ y, 0 ≤ sigmoid y value_at_margin ∧ sigmoid y value_at_margin ≤ 1) :
    0 ≤ tolerance x lower upper margin value_at_margin sigmoid ∧
      tolerance x lower upper margin value_at_margin sigmoid ≤ 1 := by
  unfold tolerance
  split_ifs <;> first
    | exact hsig _
    | norm_num

/-- Cast value of the hand target radius. -/
theorem hand_radius_cast : ((_HAND_TARGET_RADIUS : ℚ) : ℝ) = 0.05 := by
  norm_num [_HAND_TARGET_RADIUS]

/-- Cast value of the hand term margin `_HAND_TARGET_RADIUS*4`. -/
theorem hand_margin_cast : (((_HAND_TARGET_RADIUS * 4 : ℚ)) : ℝ) = 0.2 := by
  norm_num [_HAND_TARGET_RADIUS]

/-- Cast value of the prop target radius. -/
theorem target_radius_cast : ((_TARGET_RADIUS : ℚ) : ℝ) = 0.025 := by
  norm_num [_TARGET_RADIUS]

/-- Cast value of the prop term margin `_TARGET_RADIUS*4`. -/
theorem target_margin_cast : (((_TARGET_RADIUS * 4 : ℚ)) : ℝ) = 0.1 := by
  norm_num [_TARGET_RADIUS]

/-- Cast of the prop x-distance. -/
theorem prop_xdist_cast (q : ℚ) :
    ((|q - _TARGET_PROP_XPOS| : ℚ) : ℝ) = |(q : ℝ) - 0.1| := by
  unfold _TARGET_PROP_XPOS
  push_cast
  norm_num

/-- C1: for every physics snapshot, `Push.get_reward` returns the sum of
exactly two tolerance shaping terms: one applied to the Euclidean distance
between the hand tool-center-point and the target position with bounds
(0, 0.05), margin 0.2 (which is 4 times the 0.05 radius), and one applied to
the absolute difference between the target's x coordinate and the fixed
x-position 0.1 with bounds (0, 0.025), margin 0.1 (4 times the 0.025 radius);
both use the long-tail sigmoid and take the value 0.2 at their margin
(distance `upper bound + margin`). -/
theorem push_get_reward_decomposition (p : Physics) :
    Push.get_reward p =
        tolerance (norm3 (sub3 p.handTcpXpos p.targetXpos)) 0 0.05 0.2 0.2 longTail
          + tolerance |((p.targetXpos.x : ℝ)) - 0.1| 0 0.025 0.1 0.2 longTail
      ∧ (0.2 : ℝ) = 4 * 0.05 ∧ (0.1 : ℝ) = 4 * 0.025
      ∧ tolerance ((0 : ℝ) + 0.05 + 0.2) 0 0.05 0.2 0.2 longTail = 0.2
      ∧ tolerance ((0 : ℝ) + 0.025 + 0.1) 0 0.025 0.1 0.2 longTail = 0.2 := by
  refine ⟨?_, by norm_num, by norm_num, ?_, ?_⟩
  · unfold Push.get_reward hand_reward_of prop_reward_of
    rw [hand_radius_cast, hand_margin_cast, target_radius_cast, target_margin_cast,
      prop_xdist_cast]
  · rw [tolerance_above (by norm_num) (by norm_num) (by norm_num)]
    unfold longTail
    norm_num
  · rw [tolerance_above (by norm_num) (by norm_num) (by norm_num)]
    unfold longTail
    norm_num

/-- C3 (amended): the reward is a sum of two tolerance terms, each of which
lies in the unit interval, so the reward is non-negative and at most 2 (the
bound ~1.2 claimed by the spec is not an upper bound, see
`push_get_reward_reaches_two`). -/
theorem push_get_reward_bounds (p : Physics) :
    0 ≤ Push.get_reward p ∧ Push.get_reward p ≤ 2 := by
  have hsig : ∀ y : ℝ, 0 ≤ longTail y 0.2 ∧ longTail y 0.2 ≤ 1 := fun y =>
    longTail_mem_unit y 0.2 (by norm_num) (by norm_num)
  have h1 := tolerance_mem_unit (norm3 (sub3 p.handTcpXpos p.targetXpos)) 0
    ((_HAND_TARGET_RADIUS : ℚ) : ℝ) (((_HAND_TARGET_RADIUS * 4 : ℚ)) : ℝ) 0.2 longTail hsig
  have h2 := tolerance_mem_unit (((|p.targetXpos.x - _TARGET_PROP_XPOS| : ℚ)) : ℝ) 0
    ((_TARGET_RADIUS : ℚ) : ℝ) (((_TARGET_RADIUS * 4 : ℚ)) : ℝ) 0.2 longTail hsig
  unfold Push.get_reward hand_reward_of prop_reward_of
  exact ⟨by linarith [h1.1, h2.1], by linarith [h1.2, h2.2]⟩

/-- C3 (counterexample to the stated bound ~1.2): with the hand
tool-center-point exactly on the prop and the prop exactly at the target
x-position, both tolerance terms equal 1 and the reward is 2 > 1.2. -/
theorem push_get_reward_reaches_two :
    Push.get_reward cexPhysics = 2 ∧ (1.2 : ℝ) < Push.get_reward cexPhysics := by
  have hsub : sub3 cexPhysics.handTcpXpos cexPhysics.targetXpos = ⟨0, 0, 0⟩ := by
    norm_num [cexPhysics, sub3]
  have hnorm : norm3 (sub3 cexPhysics.handTcpXpos cexPhysics.targetXpos) = 0 := by
    rw [hsub]
    unfold norm3 normSq
    norm_num
  have hhand : hand_reward_of cexPhysics.handTcpXpos cexPhysics.targetXpos = 1 := by
    unfold hand_reward_of
    rw [hnorm, hand_radius_cast]
    exact tolerance_eq_one (by norm_num) (by norm_num)
  have hx : ((|cexPhysics.targetXpos.x - _TARGET_PROP_XPOS| : ℚ) : ℝ) = 0 := by
    norm_num [cexPhysics, _TARGET_PROP_XPOS]
  have hprop : prop_reward_of cexPhysics.targetXpos = 1 := by
    unfold prop_reward_of
    rw [hx, target_radius_cast]
    exact tolerance_eq_one (by norm_num) (by norm_num)
  have h : Push.get_reward cexPhysics = 2 := by
    unfold Push.get_reward
    rw [hhand, hprop]
    norm_num
  exact ⟨h, by rw [h]; norm_num⟩

/-- C5: `Push.get_reward` is a stateless function of the current physics
snapshot — it depends only on the hand tool-center-point position and the
target (prop) position, and the method leaves the task object unchanged, so
two calls on equal snapshots return equal rewards. -/
theorem push_get_reward_stateless :
    (∀ p₁ p₂ : Physics, p₁.handTcpXpos = p₂.handTcpXpos → p₁.targetXpos = p₂.targetXpos →
        Push.get_reward p₁ = Push.get_reward p₂)
      ∧ ∀ (t : Push) (p : Physics), Push.get_reward_step t p = (t, Push.get_reward p) := by
  refine ⟨fun p₁ p₂ h1 h2 => ?_, fun t p => rfl⟩
  unfold Push.get_reward
  rw [h1, h2]

/-- Witness for C5: two snapshots that agree on the hand and target positions
but differ in the site position and the remaining coordinates get the same
reward. -/
theorem push_get_reward_stateless_witness :
    Push.get_reward ⟨⟨1, 2, 3⟩, ⟨4, 5, 6⟩, ⟨7, 8, 9⟩, [1, 2]⟩ =
      Push.get_reward ⟨⟨1, 2, 3⟩, ⟨4, 5, 6⟩, ⟨0, 0, 0⟩, []⟩ :=
  push_get_reward_stateless.1 _ _ rfl rfl

/-- C2 (divergence at the failing input): on a task whose `_prop` is `None` —
the state the constructor docstring describes for `prop = None` — the reset
performs the grasp and TCP steps in order but then raises `AttributeError`
(reading the never-assigned `self._target_placer`) instead of moving the fixed
target site; on a task with a prop, the reset is the scripted sequence
(a) set grasp, (b) TCP initializer, (c) prop placer, as the claim states. -/
theorem push_init_episode_noprop_attribute_error :
    Push.init_episode noPropPush ⟨0.5⟩ =
        ([ResetEvent.setGrasp 0.5, ResetEvent.tcpInit], some PyError.attributeError)
      ∧ Push.init_episode duploPush ⟨0.25⟩ =
        ([ResetEvent.setGrasp 0.25, ResetEvent.tcpInit, ResetEvent.propPlace], none) :=
  ⟨rfl, rfl⟩

/-- C4: whenever the random state's `uniform()` sample obeys the numpy
contract (a value in `[0, 1)`), the close factor that `initialize_episode`
passes to `set_grasp` is exactly that sample, and it lies in `[0, 1]`. -/
theorem push_grasp_factor_in_unit_interval (t : Push) (rs : RandomState)
    (h : RandomState.valid rs) :
    graspFactors (Push.init_episode t rs).1 = [rs.uniform] ∧
      ∀ u ∈ graspFactors (Push.init_episode t rs).1, 0 ≤ u ∧ u ≤ 1 := by
  have hg : graspFactors (Push.init_episode t rs).1 = [rs.uniform] := by
    unfold Push.init_episode
    cases hp : t._prop <;> simp [hp, graspFactors]
  refine ⟨hg, ?_⟩
  intro u hu
  rw [hg, List.mem_singleton] at hu
  subst hu
  exact ⟨h.1, le_of_lt h.2⟩

/-- Witness for C4: a concrete random state with sample 0.5 satisfies the
numpy contract and yields exactly that grasp close factor. -/
theorem push_grasp_factor_in_unit_interval_witness :
    graspFactors (Push.init_episode noPropPush ⟨0.5⟩).1 = [(0.5 : ℚ)] :=
  (push_grasp_factor_in_unit_interval noPropPush ⟨0.5⟩
    (by norm_num [RandomState.valid])).1

/-- C6: the workspace is a tuple of exactly three fields — its three
projections determine it — and no task operation modifies anything: the
reward and reset methods leave the task object unchanged and the accessors
are plain reads. -/
theorem push_workspace_immutable :
    (∀ w₁ w₂ : _PushWorkspace, w₁.target_bbox = w₂.target_bbox →
        w₁.tcp_bbox = w₂.tcp_bbox → w₁.arm_offset = w₂.arm_offset → w₁ = w₂)
      ∧ (∀ (t : Push) (p : Physics), (Push.get_reward_step t p).1 = t)
      ∧ (∀ (t : Push) (rs : RandomState), (Push.init_episode_step t rs).1 = t)
      ∧ ∀ t : Push, Push.root_entity t = t._arena ∧ Push.arm t = t._arm ∧
          Push.hand t = t._hand ∧ Push.task_observables t = t._task_observables := by
  refine ⟨?_, fun t p => rfl, fun t rs => rfl, fun t => ⟨rfl, rfl, rfl, rfl⟩⟩
  intro w₁ w₂ h1 h2 h3
  cases w₁
  cases w₂
  simp_all

/-- Witness for C6: the three projections of the Duplo workspace reassemble
into the Duplo workspace. -/
theorem push_workspace_immutable_witness :
    (⟨_DUPLO_WORKSPACE.target_bbox, _DUPLO_WORKSPACE.tcp_bbox,
        _DUPLO_WORKSPACE.arm_offset⟩ : _PushWorkspace) = _DUPLO_WORKSPACE :=
  push_workspace_immutable.1 _ _ rfl rfl rfl

/-- C7: any task the constructor returns carries a TCP initializer whose
uniform position distribution has support exactly the workspace's `tcp_bbox`
(for the Duplo workspace: lower (-0.1, -0.1, 0.2), upper (0.1, 0.1, 0.4)) and
whose quaternion is the fixed downward-facing `DOWN_QUATERNION`; hence every
position in the sampler's support lies in that bounding box. -/
theorem push_tcp_initializer_support (arena arm hand : String)
    (prop : Option PropKind) (obs : ObservationSettings) (ws : _PushWorkspace)
    (ct : ℚ) (t : Push) (h : Push.init arena arm hand prop obs ws ct = Except.ok t) :
    (t._tcp_initializer.lower = ws.tcp_bbox.lower ∧
        t._tcp_initializer.upper = ws.tcp_bbox.upper ∧
        t._tcp_initializer.quaternion = DOWN_QUATERNION)
      ∧ (ws = _DUPLO_WORKSPACE →
          t._tcp_initializer.lower = ⟨-0.1, -0.1, 0.2⟩ ∧
            t._tcp_initializer.upper = ⟨0.1, 0.1, 0.4⟩)
      ∧ ∀ v : Vec3, tcpSampleSupport t._tcp_initializer v → inBBox ws.tcp_bbox v := by
  cases prop with
  | none => simp [Push.init] at h
  | some pk =>
    simp only [Push.init, Except.ok.injEq] at h
    subst h
    refine ⟨⟨rfl, rfl, rfl⟩, fun hws => ?_, fun v hv => hv⟩
    subst hws
    exact ⟨rfl, rfl⟩

/-- Witness for C7: the features-variant task is built from the Duplo
workspace, a point of the sampler's support lies in the Duplo TCP bounding
box. -/
theorem push_tcp_initializer_support_witness :
    inBBox _DUPLO_WORKSPACE.tcp_bbox ⟨0, 0, 0.3⟩ :=
  (push_tcp_initializer_support "standard_arena" "arm" "hand"
      (some PropKind.duplo) ObservationSettings.PERFECT_FEATURES _DUPLO_WORKSPACE
      CONTROL_TIMESTEP duploPush rfl).2.2 ⟨0, 0, 0.3⟩
    (by norm_num [tcpSampleSupport, uniformSupport, duploPush, _DUPLO_WORKSPACE])

/-- C8: exactly two factory functions are registered — `push_duplo_features`
under (FEATURES, EASY) and `push_duplo_vision` under (VISION, EASY) — both
return the task built by the shared `_push` helper, and the two tasks differ
only in their observation settings. -/
theorem push_factories_registered :
    registeredEntries.length = 2
      ∧ registeredEntries =
          [⟨"push_duplo_features", [TaskTag.FEATURES, TaskTag.EASY],
              _push ObservationSettings.PERFECT_FEATURES⟩,
           ⟨"push_duplo_vision", [TaskTag.VISION, TaskTag.EASY],
              _push ObservationSettings.VISION⟩]
      ∧ push_duplo_features = _push ObservationSettings.PERFECT_FEATURES
      ∧ push_duplo_vision = _push ObservationSettings.VISION
      ∧ ∃ t₁ t₂ : Push, push_duplo_features = Except.ok t₁ ∧
          push_duplo_vision = Except.ok t₂ ∧
          t₁.obs_settings = ObservationSettings.PERFECT_FEATURES ∧
          t₂.obs_settings = ObservationSettings.VISION ∧
          { t₁ with obs_settings := ObservationSettings.VISION } = t₂ :=
  ⟨rfl, rfl, rfl, rfl, duploPush,
   { duploPush with obs_settings := ObservationSettings.VISION },
   rfl, rfl, rfl, rfl, rfl⟩

/-- C9: both reward terms are computed from one and the same position — that
of the prop registered as the task's target: the hand proximity term takes
the prop's own position as target point and the displacement term takes the x
coordinate of that same position; the reward ignores the site position (and
all other coordinates), and the target site attached to the prop is created
invisible. -/
theorem push_reward_single_target_position :
    (∀ p : Physics, Push.get_reward p =
        hand_reward_of p.handTcpXpos p.targetXpos + prop_reward_of p.targetXpos)
      ∧ (∀ (p : Physics) (s : Vec3) (q : List ℚ),
          Push.get_reward ⟨p.handTcpXpos, p.targetXpos, s, q⟩ = Push.get_reward p)
      ∧ ∀ (arena arm hand : String) (pk : PropKind) (obs : ObservationSettings)
          (ws : _PushWorkspace) (ct : ℚ) (t : Push),
          Push.init arena arm hand (some pk) obs ws ct = Except.ok t →
          t.targetSiteOnProp = some (Push._make_target_site false) ∧
            (Push._make_target_site false).visible = false := by
  refine ⟨fun p => rfl, fun p s q => rfl, ?_⟩
  intro arena arm hand pk obs ws ct t h
  simp only [Push.init, Except.ok.injEq] at h
  subst h
  exact ⟨rfl, rfl⟩

/-- Witness for C9: the concrete features-variant task carries the invisible
target site on its prop. -/
theorem push_reward_single_target_position_witness :
    duploPush.targetSiteOnProp = some (Push._make_target_site false) ∧
      (Push._make_target_site false).visible = false :=
  push_reward_single_target_position.2.2 "standard_arena" "arm" "hand"
    PropKind.duplo ObservationSettings.PERFECT_FEATURES _DUPLO_WORKSPACE
    CONTROL_TIMESTEP duploPush rfl

/-- C10: constructing a Push task requires a non-None prop — with
`prop = None` the constructor fails with `AttributeError` (it unconditionally
dereferences the prop to attach the target site and add the free entity), and
on any task object whose `_prop` is `None` the reset's no-prop branch fails as
well, because the `_target_placer` attribute it reads is never assigned
anywhere in the class. -/
theorem push_requires_prop :
    (∀ (arena arm hand : String) (obs : ObservationSettings)
        (ws : _PushWorkspace) (ct : ℚ),
        Push.init arena arm hand none obs ws ct = Except.error PyError.attributeError)
      ∧ ∀ (t : Push) (rs : RandomState), t._prop = none →
          Push.init_episode t rs =
            ([ResetEvent.setGrasp rs.uniform, ResetEvent.tcpInit],
              some PyError.attributeError) := by
  refine ⟨fun arena arm hand obs ws ct => rfl, fun t rs hp => ?_⟩
  simp [Push.init_episode, hp]

/-- Witness for C10: concrete constructor call with `prop = None`, and the
reset on a concrete no-prop task object. -/
theorem push_requires_prop_witness :
    Push.init "standard_arena" "arm" "hand" none ObservationSettings.VISION
        _DUPLO_WORKSPACE CONTROL_TIMESTEP = Except.error PyError.attributeError
      ∧ Push.init_episode noPropPush ⟨0.75⟩ =
        ([ResetEvent.setGrasp 0.75, ResetEvent.tcpInit], some PyError.attributeError) :=
  ⟨push_requires_prop.1 "standard_arena" "arm" "hand" ObservationSettings.VISION
      _DUPLO_WORKSPACE CONTROL_TIMESTEP,
   push_requires_prop.2 noPropPush ⟨0.75⟩ rfl⟩
